import Mathlib

/-!
Verification of the Derivatives repository: a shallow embedding of the
one-period binomial CPT pricer (`SinglePeriodBinomial.py`), the
Black-Scholes pricer and greeks dashboard (`models/black_scholes.py`),
and the call-put-parity payoff script (`relationships/call_put_parity.py`),
together with theorems settling the specification's claims about them.

Python floats are idealised as exact rationals (for the fully arithmetic
binomial pricer) or reals (for the transcendental Black-Scholes formulas);
Python's `ZeroDivisionError` is modelled by an `Except`-valued embedding
that fails at exactly the divisions the source performs, in source order.
-/

open MeasureTheory Set

/-- Python's `round` to an integer: round-half-to-even (banker's rounding). -/
def roundHalfEven (q : ℚ) : ℤ :=
  if q - ⌊q⌋ < 1/2 then ⌊q⌋
  else if q - ⌊q⌋ > 1/2 then ⌊q⌋ + 1
  else if 2 ∣ ⌊q⌋ then ⌊q⌋ else ⌊q⌋ + 1

/-- Python's `round(x, 2)`: round to two decimal places, half to even. -/
def round2 (q : ℚ) : ℚ := (roundHalfEven (q * 100) : ℚ) / 100

/-- The dictionary returned by `binomial_CPT_paper`
(`SinglePeriodBinomial.py`), one field per key. -/
structure BinResult where
  S0 : ℚ
  Su : ℚ
  Sd : ℚ
  Cu : ℚ
  Cd : ℚ
  R : ℚ
  p : ℚ
  expectedPayoff : ℚ
  Delta : ℚ
  Bond : ℚ
  Price : ℚ
deriving DecidableEq, Repr

/-- Embedding of `binomial_CPT_paper(S0, K, r, T, u, d, option)` from
`SinglePeriodBinomial.py`.  Each Python division is guarded in source
order: a zero divisor raises `ZeroDivisionError` in Python, modelled as
`Except.error "division by zero"`. -/
def binomial_CPT_paper (S0 K r T u d : ℚ) (opt : String) :
    Except String BinResult :=
  let Su := S0 * u
  let Sd := S0 * d
  let Cu := if opt = "call" then max (Su - K) 0 else max (K - Su) 0
  let Cd := if opt = "call" then max (Sd - K) 0 else max (K - Sd) 0
  let R := 1 + r * T
  if u - d = 0 then Except.error "division by zero" else
  let p := round2 ((R - d) / (u - d))
  let expectedPayoff := p * Cu + (1 - p) * Cd
  if R = 0 then Except.error "division by zero" else
  let price := round2 (expectedPayoff / R)
  if Su - Sd = 0 then Except.error "division by zero" else
  let delta := round2 ((Cu - Cd) / (Su - Sd))
  let B := round2 (price - delta * S0)
  Except.ok
    { S0 := S0, Su := Su, Sd := Sd, Cu := Cu, Cd := Cd, R := R, p := p,
      expectedPayoff := expectedPayoff, Delta := delta, Bond := B,
      Price := price }

/-- The step-by-step computation the specification describes for the
binomial pricer, written from the spec's words: Su = S0·u, Sd = S0·d,
payoffs by `max`, R = 1 + rT, p rounded to 2 decimals BEFORE the expected
payoff p·Cu + (1−p)·Cd is formed, price = that expected payoff divided
once by R then rounded, delta = round((Cu−Cd)/(Su−Sd), 2),
bond = round(price − delta·S0, 2), and no other rounding. -/
def binomial_CPT_spec (S0 K r T u d : ℚ) (opt : String) : BinResult :=
  let Su := S0 * u
  let Sd := S0 * d
  let Cu := if opt = "call" then max (Su - K) 0 else max (K - Su) 0
  let Cd := if opt = "call" then max (Sd - K) 0 else max (K - Sd) 0
  let R := 1 + r * T
  let p := round2 ((R - d) / (u - d))
  let expectedPayoff := p * Cu + (1 - p) * Cd
  let price := round2 (expectedPayoff / R)
  let delta := round2 ((Cu - Cd) / (Su - Sd))
  { S0 := S0, Su := Su, Sd := Sd, Cu := Cu, Cd := Cd, R := R, p := p,
    expectedPayoff := expectedPayoff, Delta := delta,
    Bond := round2 (price - delta * S0), Price := price }

/-- C1 (counterexample): with u ≠ d and S0 ≠ 0 but 1 + r·T = 0
(take r = −1, T = 1), the function raises a division-by-zero error at the
discounting step instead of following the claimed steps to completion. -/
theorem c1_binomial_steps_counterexample :
    binomial_CPT_paper 100 110 (-1) 1 (8/5) (7/10) "call" =
      Except.error "division by zero" ∧
    ¬ (binomial_CPT_paper 100 110 (-1) 1 (8/5) (7/10) "call" =
        Except.ok (binomial_CPT_spec 100 110 (-1) 1 (8/5) (7/10) "call")) ∧
    (8/5 : ℚ) ≠ 7/10 ∧ (100 : ℚ) ≠ 0 := by
  have heval : binomial_CPT_paper 100 110 (-1) 1 (8/5) (7/10) "call" =
      Except.error "division by zero" := by
    norm_num [binomial_CPT_paper]
  refine ⟨heval, ?_, by norm_num, by norm_num⟩
  intro h
  rw [heval] at h
  exact Except.noConfusion h

/-- C1 (amended): for every input with u ≠ d, S0 ≠ 0 and additionally
1 + r·T ≠ 0, `binomial_CPT_paper` follows exactly the claimed steps in the
claimed order — in particular the risk-neutral probability is rounded to
2 decimals before the expected payoff is formed, the price is the rounded-p
expected payoff divided once by R and then rounded, and no other rounding
occurs. -/
theorem c1_binomial_steps (S0 K r T u d : ℚ) (opt : String)
    (hud : u ≠ d) (hS0 : S0 ≠ 0) (hR : 1 + r * T ≠ 0) :
    binomial_CPT_paper S0 K r T u d opt =
      Except.ok (binomial_CPT_spec S0 K r T u d opt) := by
  have h1 : u - d ≠ 0 := sub_ne_zero.mpr hud
  have h2 : S0 * u - S0 * d ≠ 0 := by
    rw [← mul_sub]; exact mul_ne_zero hS0 h1
  simp only [binomial_CPT_paper, binomial_CPT_spec, if_neg h1, if_neg hR,
    if_neg h2]

/-- C1 (witness): the amended theorem applied at the repository's own
example input. -/
theorem c1_binomial_steps_witness :
    binomial_CPT_paper 100 110 (1/20) 1 (8/5) (7/10) "call" =
      Except.ok (binomial_CPT_spec 100 110 (1/20) 1 (8/5) (7/10) "call") :=
  c1_binomial_steps 100 110 (1/20) 1 (8/5) (7/10) "call"
    (by norm_num) (by norm_num) (by norm_num)

/-- C2: at S0=100, K=110, r=0.05, T=1, u=1.6, d=0.7 the call branch
returns p=0.39, Cu=50, Cd=0, Price=18.57, Delta=0.56, Bond=−37.43, and
the put branch returns Cu=0, Cd=40, Price=23.24. -/
theorem c2_binomial_example_values :
    (binomial_CPT_paper 100 110 (1/20) 1 (8/5) (7/10) "call").map
        (fun res => (res.p, res.Cu, res.Cd, res.Price, res.Delta, res.Bond))
      = Except.ok (39/100, 50, 0, 1857/100, 14/25, -3743/100) ∧
    (binomial_CPT_paper 100 110 (1/20) 1 (8/5) (7/10) "put").map
        (fun res => (res.Cu, res.Cd, res.Price))
      = Except.ok (0, 40, 581/25) := by
  have hpc : ("put" = "call") = False := eq_false (by decide)
  constructor <;>
    norm_num [binomial_CPT_paper, round2, roundHalfEven, Except.map, hpc]

/-- C7: when u = d, `binomial_CPT_paper` fails with a division-by-zero
error (at the risk-neutral-probability step); no branch recovers, so the
error is the function's result. -/
theorem c7_u_eq_d_division_error (S0 K r T u d : ℚ) (opt : String)
    (h : u = d) :
    binomial_CPT_paper S0 K r T u d opt =
      Except.error "division by zero" := by
  subst h
  simp [binomial_CPT_paper]

/-- C7 (witness): concrete instance with u = d = 1. -/
theorem c7_u_eq_d_division_error_witness :
    binomial_CPT_paper 100 110 (1/20) 1 1 1 "call" =
      Except.error "division by zero" :=
  c7_u_eq_d_division_error 100 110 (1/20) 1 1 1 "call" rfl

/-- C10: u ≠ d alone does not make the pricer total: whenever S0 = 0 the
hedge-ratio division (or, if 1+rT = 0, the discounting division) divides
by zero and the function errors; and success requires S0·(u−d) ≠ 0, so
the error is unreachable only under that stronger precondition. -/
theorem c10_S0_zero_division_error (S0 K r T u d : ℚ) (opt : String) :
    (u ≠ d → S0 = 0 →
      binomial_CPT_paper S0 K r T u d opt =
        Except.error "division by zero") ∧
    (∀ res, binomial_CPT_paper S0 K r T u d opt = Except.ok res →
      S0 * (u - d) ≠ 0) := by
  constructor
  · intro hud hS0
    subst hS0
    have h1 : u - d ≠ 0 := sub_ne_zero.mpr hud
    by_cases hR : 1 + r * T = 0 <;>
      simp [binomial_CPT_paper, if_neg h1, hR]
  · intro res hok
    unfold binomial_CPT_paper at hok
    by_cases h1 : u - d = 0
    · simp [h1] at hok
    by_cases hR : 1 + r * T = 0
    · simp [h1, hR] at hok
    by_cases h2 : S0 * u - S0 * d = 0
    · simp [h1, hR, h2] at hok
    · rw [← mul_sub] at h2
      exact h2

/-- C10 (witness): at S0 = 0, u = 2, d = 1 the function errors. -/
theorem c10_S0_zero_division_error_witness :
    binomial_CPT_paper 0 110 (1/20) 1 2 1 "call" =
      Except.error "division by zero" :=
  (c10_S0_zero_division_error 0 110 (1/20) 1 2 1 "call").1
    (by norm_num) rfl

/-- The standard normal cumulative distribution function (scipy's
`norm.cdf`), as a real integral. -/
noncomputable def normCdf (x : ℝ) : ℝ :=
  (∫ t in Iic x, Real.exp (-t ^ 2 / 2)) / Real.sqrt (2 * Real.pi)

/-- The standard normal probability density function (scipy's
`norm.pdf`). -/
noncomputable def normPdf (x : ℝ) : ℝ :=
  Real.exp (-x ^ 2 / 2) / Real.sqrt (2 * Real.pi)

theorem gauss_integrable : Integrable (fun t : ℝ => Real.exp (-t ^ 2 / 2)) := by
  have h := integrable_exp_neg_mul_sq (b := (1:ℝ)/2) (by norm_num)
  have he : (fun t : ℝ => Real.exp (-(1/2) * t ^ 2))
      = fun t : ℝ => Real.exp (-t ^ 2 / 2) := by
    funext t; ring_nf
  rwa [he] at h

theorem gauss_total : (∫ t : ℝ, Real.exp (-t ^ 2 / 2)) = Real.sqrt (2 * Real.pi) := by
  have h := integral_gaussian ((1:ℝ)/2)
  have he : (fun t : ℝ => Real.exp (-(1/2) * t ^ 2))
      = fun t : ℝ => Real.exp (-t ^ 2 / 2) := by
    funext t; ring_nf
  rw [he] at h
  rw [h, show Real.pi / ((1:ℝ)/2) = 2 * Real.pi from by ring]

/-- Symmetry of the standard normal CDF: Φ(x) + Φ(−x) = 1. -/
theorem normCdf_add_neg (x : ℝ) : normCdf x + normCdf (-x) = 1 := by
  have h2 := integral_comp_neg_Iic (-x) (fun t : ℝ => Real.exp (-t ^ 2 / 2))
  simp only [neg_sq, neg_neg] at h2
  have h3 := integral_add_compl (measurableSet_Iic (a := x)) gauss_integrable
  rw [compl_Iic] at h3
  unfold normCdf
  rw [div_add_div_same, h2, h3, gauss_total, div_self]
  exact Real.sqrt_ne_zero'.mpr (by positivity)

/-- The 8-tuple returned by `bs_call_put` (`models/black_scholes.py`):
(call, put, call delta, put delta, gamma, vega, call theta per day,
put theta per day). -/
structure BSResult where
  call : ℝ
  put : ℝ
  call_delta : ℝ
  put_delta : ℝ
  gamma : ℝ
  vega : ℝ
  call_theta : ℝ
  put_theta : ℝ

/-- `d1` as computed in the `T > 0` branch of `bs_call_put`. -/
noncomputable def bs_d1 (S K r sigma T : ℝ) : ℝ :=
  (Real.log (S / K) + (r + 0.5 * sigma ^ 2) * T) / (sigma * Real.sqrt T)

/-- `d2 = d1 − sigma·√T` as computed in `bs_call_put`. -/
noncomputable def bs_d2 (S K r sigma T : ℝ) : ℝ :=
  bs_d1 S K r sigma T - sigma * Real.sqrt T

/-- Embedding of `bs_call_put(S, K, r, sigma, T)` from
`models/black_scholes.py`.  Thetas are per-day (annual / 365). -/
noncomputable def bs_call_put (S K r sigma T : ℝ) : BSResult :=
  if T ≤ 0 then
    { call := max (S - K) 0
      put := max (K - S) 0
      call_delta := if S > K then 1 else 0
      put_delta := (if S > K then (1:ℝ) else 0) - 1
      gamma := 0
      vega := 0
      call_theta := 0
      put_theta := 0 }
  else
    let d1 := bs_d1 S K r sigma T
    let d2 := bs_d2 S K r sigma T
    { call := S * normCdf d1 - K * Real.exp (-r * T) * normCdf d2
      put := K * Real.exp (-r * T) * normCdf (-d2) - S * normCdf (-d1)
      call_delta := normCdf d1
      put_delta := normCdf d1 - 1
      gamma := normPdf d1 / (S * sigma * Real.sqrt T)
      vega := S * normPdf d1 * Real.sqrt T
      call_theta := ((-S * normPdf d1 * sigma) / (2 * Real.sqrt T)
        - r * K * Real.exp (-r * T) * normCdf d2) / 365
      put_theta := ((-S * normPdf d1 * sigma) / (2 * Real.sqrt T)
        + r * K * Real.exp (-r * T) * normCdf (-d2)) / 365 }

/-- C3: for T ≤ 0, `bs_call_put` returns exactly the intrinsic values
max(S−K,0) and max(K−S,0), call delta the hard step (1 if S > K else 0,
hence 0 at S = K), put delta = call delta − 1, and gamma, vega and both
thetas identically 0. -/
theorem c3_intrinsic_at_expiry (S K r sigma T : ℝ) (hT : T ≤ 0) :
    (bs_call_put S K r sigma T).call = max (S - K) 0 ∧
    (bs_call_put S K r sigma T).put = max (K - S) 0 ∧
    (bs_call_put S K r sigma T).call_delta = (if S > K then (1:ℝ) else 0) ∧
    (S = K → (bs_call_put S K r sigma T).call_delta = 0) ∧
    (bs_call_put S K r sigma T).put_delta
      = (bs_call_put S K r sigma T).call_delta - 1 ∧
    (bs_call_put S K r sigma T).gamma = 0 ∧
    (bs_call_put S K r sigma T).vega = 0 ∧
    (bs_call_put S K r sigma T).call_theta = 0 ∧
    (bs_call_put S K r sigma T).put_theta = 0 := by
  refine ⟨?_, ?_, ?_, ?_, ?_, ?_, ?_, ?_, ?_⟩ <;>
    simp only [bs_call_put, if_pos hT]
  intro h
  subst h
  simp

/-- C3 (witness): the statement instantiated at S=2, K=1, r=0, sigma=0,
T=0. -/
theorem c3_intrinsic_at_expiry_witness :
    (0:ℝ) ≤ 0 ∧
    ((bs_call_put 2 1 0 0 0).call = max (2 - 1) 0 ∧
     (bs_call_put 2 1 0 0 0).put = max (1 - 2) 0 ∧
     (bs_call_put 2 1 0 0 0).call_delta = (if (2:ℝ) > 1 then (1:ℝ) else 0) ∧
     ((2:ℝ) = 1 → (bs_call_put 2 1 0 0 0).call_delta = 0) ∧
     (bs_call_put 2 1 0 0 0).put_delta
       = (bs_call_put 2 1 0 0 0).call_delta - 1 ∧
     (bs_call_put 2 1 0 0 0).gamma = 0 ∧
     (bs_call_put 2 1 0 0 0).vega = 0 ∧
     (bs_call_put 2 1 0 0 0).call_theta = 0 ∧
     (bs_call_put 2 1 0 0 0).put_theta = 0) :=
  ⟨le_refl 0, c3_intrinsic_at_expiry 2 1 0 0 0 (le_refl 0)⟩

/-- C4: in both branches of `bs_call_put`, the returned call delta minus
the returned put delta equals exactly 1. -/
theorem c4_delta_difference (S K r sigma T : ℝ) :
    (bs_call_put S K r sigma T).call_delta
      - (bs_call_put S K r sigma T).put_delta = 1 := by
  simp only [bs_call_put]
  split_ifs <;> ring

/-- C5: for S, K, r, sigma, T all strictly positive, the Black-Scholes
call and put prices satisfy put-call parity exactly over the real-number
embedding: call − put = S − K·e^(−rT). -/
theorem c5_put_call_parity (S K r sigma T : ℝ)
    (_hS : 0 < S) (_hK : 0 < K) (_hr : 0 < r) (_hsigma : 0 < sigma)
    (hT : 0 < T) :
    (bs_call_put S K r sigma T).call - (bs_call_put S K r sigma T).put
      = S - K * Real.exp (-r * T) := by
  simp only [bs_call_put, if_neg (not_le.mpr hT)]
  have h1 := normCdf_add_neg (bs_d1 S K r sigma T)
  have h2 := normCdf_add_neg (bs_d2 S K r sigma T)
  linear_combination S * h1 - K * Real.exp (-r * T) * h2

/-- C5 (witness): parity at S = K = r = sigma = T = 1. -/
theorem c5_put_call_parity_witness :
    (0:ℝ) < 1 ∧
    (bs_call_put 1 1 1 1 1).call - (bs_call_put 1 1 1 1 1).put
      = 1 - 1 * Real.exp (-1 * 1) :=
  ⟨by norm_num, c5_put_call_parity 1 1 1 1 1 (by norm_num) (by norm_num)
    (by norm_num) (by norm_num) (by norm_num)⟩

/-- `np.linspace(a, b, n)` at index i (for n ≥ 2): a + (b−a)·i/(n−1). -/
noncomputable def linspace (a b : ℝ) (n i : ℕ) : ℝ :=
  a + (b - a) * i / ((n : ℝ) - 1)

/-- Centered finite difference of f at x with step h:
(f(x+h) − f(x−h)) / (2h) — the estimator the spec describes for rho. -/
noncomputable def centeredDiff (f : ℝ → ℝ) (x h : ℝ) : ℝ :=
  (f (x + h) - f (x - h)) / (2 * h)

namespace Dashboard

/-- `S_center = 82000.0` from `models/black_scholes.py`. -/
noncomputable def S_center : ℝ := 82000

/-- `K = 93800.0` from `models/black_scholes.py`. -/
noncomputable def K : ℝ := 93800

/-- `r = 0.05` from `models/black_scholes.py`. -/
noncomputable def r : ℝ := 0.05

/-- `sigma = 0.50` from `models/black_scholes.py`. -/
noncomputable def sigma : ℝ := 0.50

/-- `eps = 1e-5`, the rho finite-difference step. -/
noncomputable def eps : ℝ := 1e-5

/-- `r_range = np.linspace(0.0, 0.20, 200)` at index i. -/
noncomputable def r_range (i : ℕ) : ℝ := linspace 0 0.20 200 i

/-- `call_rho_arr[i]` from the rho loop of `models/black_scholes.py`:
(c_up − c_dn) / (2·eps) with the rate bumped by ±eps.  `T_ref` is the
time to expiry the script derives from the wall clock, kept as a
parameter. -/
noncomputable def call_rho_arr (T_ref : ℝ) (i : ℕ) : ℝ :=
  ((bs_call_put S_center K (r_range i + eps) sigma T_ref).call
    - (bs_call_put S_center K (r_range i - eps) sigma T_ref).call) / (2 * eps)

/-- `put_rho_arr[i]` from the same loop, using the put price. -/
noncomputable def put_rho_arr (T_ref : ℝ) (i : ℕ) : ℝ :=
  ((bs_call_put S_center K (r_range i + eps) sigma T_ref).put
    - (bs_call_put S_center K (r_range i - eps) sigma T_ref).put) / (2 * eps)

/-- The CSV header row written by the dashboard. -/
def csv_header : List String :=
  ["S", "CallPrice", "PutPrice", "CallDelta", "PutDelta", "Gamma", "Vega",
   "CallTheta_per_day", "PutTheta_per_day"]

/-- The spot values of the CSV sweep:
`np.linspace(S_center*0.9, S_center*1.1, 21)`. -/
noncomputable def csv_spots : List ℝ :=
  (List.range 21).map (fun i => linspace (S_center * 0.9) (S_center * 1.1) 21 i)

/-- The CSV data rows: one row per swept spot, holding the spot and the
8 outputs of `bs_call_put` at that spot. -/
noncomputable def csv_rows (T_ref : ℝ) : List (ℝ × BSResult) :=
  csv_spots.map (fun S => (S, bs_call_put S K r sigma T_ref))

end Dashboard

/-- C6: the dashboard's rho values are centered finite differences of the
`bs_call_put` prices with step 1e-5 on the rate, all other arguments held
fixed — for every rate index in the 200-point sweep, the stored call and
put rho equal (price(rr+eps) − price(rr−eps)) / (2·eps) with eps = 1e-5. -/
theorem c6_rho_finite_difference (T_ref : ℝ) (i : ℕ) (_hi : i < 200) :
    Dashboard.call_rho_arr T_ref i
      = centeredDiff
          (fun rr => (bs_call_put Dashboard.S_center Dashboard.K rr
            Dashboard.sigma T_ref).call)
          (Dashboard.r_range i) (1/100000) ∧
    Dashboard.put_rho_arr T_ref i
      = centeredDiff
          (fun rr => (bs_call_put Dashboard.S_center Dashboard.K rr
            Dashboard.sigma T_ref).put)
          (Dashboard.r_range i) (1/100000) := by
  constructor <;>
    · simp only [Dashboard.call_rho_arr, Dashboard.put_rho_arr, centeredDiff]
      norm_num [Dashboard.eps]

/-- C6 (witness): the finite-difference identity at the first sweep index
with T_ref = 1. -/
theorem c6_rho_finite_difference_witness :
    0 < 200 ∧
    (Dashboard.call_rho_arr 1 0
      = centeredDiff
          (fun rr => (bs_call_put Dashboard.S_center Dashboard.K rr
            Dashboard.sigma 1).call)
          (Dashboard.r_range 0) (1/100000) ∧
    Dashboard.put_rho_arr 1 0
      = centeredDiff
          (fun rr => (bs_call_put Dashboard.S_center Dashboard.K rr
            Dashboard.sigma 1).put)
          (Dashboard.r_range 0) (1/100000)) :=
  ⟨by norm_num, c6_rho_finite_difference 1 0 (by norm_num)⟩

/-- C8: the dashboard CSV has exactly the claimed header and exactly 21
data rows, one per spot of `np.linspace(S_center*0.9, S_center*1.1, 21)`
— the evenly spaced sweep 73800 + 820·i (i = 0..20), i.e. spot ±10%
around the center 82000 — each row holding the spot and the 8
`bs_call_put` outputs for that spot. -/
theorem c8_csv_header_and_rows (T_ref : ℝ) :
    Dashboard.csv_header
      = ["S", "CallPrice", "PutPrice", "CallDelta", "PutDelta", "Gamma",
         "Vega", "CallTheta_per_day", "PutTheta_per_day"] ∧
    (Dashboard.csv_rows T_ref).length = 21 ∧
    Dashboard.csv_rows T_ref
      = (List.range 21).map (fun i : ℕ =>
          ((73800 : ℝ) + 820 * (i : ℝ),
           bs_call_put ((73800 : ℝ) + 820 * (i : ℝ)) 93800 0.05 0.50
             T_ref)) := by
  have hS : ∀ i : ℕ,
      linspace (Dashboard.S_center * 0.9) (Dashboard.S_center * 1.1) 21 i
        = (73800 : ℝ) + 820 * i := by
    intro i
    simp only [linspace, Dashboard.S_center]
    push_cast
    ring_nf
  refine ⟨rfl, by simp [Dashboard.csv_rows, Dashboard.csv_spots], ?_⟩
  unfold Dashboard.csv_rows Dashboard.csv_spots
  rw [List.map_map]
  apply List.map_congr_left
  intro i _
  simp only [Function.comp_apply, hS, Dashboard.K, Dashboard.r,
    Dashboard.sigma]

namespace Parity

/-- `S0 = 100` from `relationships/call_put_parity.py`. -/
noncomputable def S0 : ℝ := 100

/-- `K = 95` from `relationships/call_put_parity.py`. -/
noncomputable def K : ℝ := 95

/-- `put_premium = 4`. -/
noncomputable def put_premium : ℝ := 4

/-- `call_premium = 4`. -/
noncomputable def call_premium : ℝ := 4

/-- `r = 0.05`. -/
noncomputable def r : ℝ := 0.05

/-- `T = 1`. -/
noncomputable def T : ℝ := 1

/-- `PV_K = K / np.exp(r * T)`. -/
noncomputable def PV_K : ℝ := K / Real.exp (r * T)

/-- `S_T = np.linspace(50, 150, 300)` at index i. -/
noncomputable def S_T (i : ℕ) : ℝ := linspace 50 150 300 i

/-- `stock_payoff = S_T - S0`, pointwise. -/
noncomputable def stock_payoff (s : ℝ) : ℝ := s - S0

/-- `put_payoff = np.maximum(K - S_T, 0) - put_premium`, pointwise. -/
noncomputable def put_payoff (s : ℝ) : ℝ := max (K - s) 0 - put_premium

/-- `protective_put_total = stock_payoff + put_payoff`, pointwise. -/
noncomputable def protective_put_total (s : ℝ) : ℝ :=
  stock_payoff s + put_payoff s

/-- `call_payoff = np.maximum(S_T - K, 0) - call_premium`, pointwise. -/
noncomputable def call_payoff (s : ℝ) : ℝ := max (s - K) 0 - call_premium

/-- `bond_payoff = PV_K * np.exp(r * T) - PV_K`. -/
noncomputable def bond_payoff : ℝ := PV_K * Real.exp (r * T) - PV_K

/-- `fiduciary_call_total = call_payoff + (K - K)`, pointwise. -/
noncomputable def fiduciary_call_total (s : ℝ) : ℝ := call_payoff s + (K - K)

/-- The two y-arrays the script hands to `plt.plot`, as a function of the
value bound to `bond_payoff` and the array bound to
`fiduciary_call_total` at plotting time: the script plots
`protective_put_total` over the sweep and then the second variable over
the sweep; `bond_payoff` is read nowhere. -/
noncomputable def script_curves (_bond : ℝ) (fct : ℝ → ℝ) :
    (ℕ → ℝ) × (ℕ → ℝ) :=
  (fun i => protective_put_total (S_T i), fun i => fct (S_T i))

end Parity

/-- C9 (counterexample): `fiduciary_call_total` is not dead code — it is
the y-data of the second plotted curve, so altering it (here: to the
constant 0) changes the plotted output; at sweep index 299 (S_T = 150)
the original curve reads 51 and the altered one reads 0. -/
theorem c9_dead_code_counterexample :
    ¬ (Parity.script_curves Parity.bond_payoff (fun _ => 0)
        = Parity.script_curves Parity.bond_payoff
            Parity.fiduciary_call_total) := by
  intro h
  have h2 := congrFun (congrArg Prod.snd h) 299
  simp only [Parity.script_curves] at h2
  rw [show Parity.S_T 299 = 150 from by
    simp only [Parity.S_T, linspace]; norm_num] at h2
  norm_num [Parity.fiduciary_call_total, Parity.call_payoff, Parity.K,
    Parity.call_premium] at h2

/-- C9 (amended): `bond_payoff` is genuinely dead — the plotted output
does not depend on it — and the `(K - K)` term in
`fiduciary_call_total` is a no-op, so the plotted fiduciary-call curve
equals the plain call payoff; but `fiduciary_call_total` itself is live:
it is the second plotted curve. -/
theorem c9_dead_code_amended :
    (∀ b : ℝ, Parity.script_curves b Parity.fiduciary_call_total
        = Parity.script_curves Parity.bond_payoff
            Parity.fiduciary_call_total) ∧
    (∀ s : ℝ, Parity.fiduciary_call_total s = Parity.call_payoff s) ∧
    (Parity.script_curves Parity.bond_payoff
        Parity.fiduciary_call_total).2
      = fun i => Parity.fiduciary_call_total (Parity.S_T i) := by
  refine ⟨fun b => rfl, fun s => ?_, rfl⟩
  rw [Parity.fiduciary_call_total, sub_self, add_zero]
